import Mathlib

/-!
Verification development for the dredispy server (a small Redis-like
in-memory key/value store with TTL expiry and pub/sub).

Shallow embedding conventions:
  * Byte strings (Python `bytes`) are `List Nat`, one ASCII code per byte.
  * `datetime` instants and millisecond durations are `Int` (an absolute
    instant is milliseconds on an abstract axis; only comparison and
    addition of a millisecond delta are used by the source).
  * Python `dict` is an insertion-ordered association list; `dict` update
    keeps the position of an existing key and appends a fresh one.
  * Fallible code returns `Except`/`Option`; an unstructured Python
    exception (IndexError, TypeError, AttributeError) is a distinguished
    error constructor, kept separate from the structured `RedisError`
    hierarchy of dredispy/data.py.
-/

namespace Dredispy

/-! ## Byte-string helpers -/

/-- ASCII code of CR. -/
def CR : Nat := 13

/-- ASCII code of LF. -/
def LF : Nat := 10

/-- The two-byte CRLF terminator used by the RESP wire protocol. -/
def crlfBytes : List Nat := [13, 10]

/-- Lowercase one ASCII byte, as Python `str.lower` does on the ASCII range. -/
def asciiLower (c : Nat) : Nat :=
  if 65 ≤ c ∧ c ≤ 90 then c + 32 else c

/-- Lowercase a byte string (models `bytes.lower()` / `str.lower()` on ASCII). -/
def bytesLower (b : List Nat) : List Nat := b.map asciiLower

/-- Decimal digits of a positive number, least significant first, as ASCII codes. -/
def digitsRev : Nat → List Nat
  | 0 => []
  | n + 1 => ((n + 1) % 10 + 48) :: digitsRev ((n + 1) / 10)
decreasing_by exact Nat.div_lt_self (Nat.succ_pos n) (by omega)

/-- ASCII decimal representation of a natural number, as Python `str(n)` produces
for a non-negative `int`. -/
def natDigits (n : Nat) : List Nat :=
  if n = 0 then [48] else (digitsRev n).reverse

/-- ASCII decimal representation of an integer, as Python `str(n)` produces
(a leading minus sign for negative values). -/
def intDigits (n : Int) : List Nat :=
  if n < 0 then 45 :: natDigits n.natAbs else natDigits n.toNat

/-- Is the byte an ASCII decimal digit? -/
def isDigit (c : Nat) : Bool := 48 ≤ c ∧ c ≤ 57

/-- Numeric value of a digit string (callers must check `isDigit` membership). -/
def digitsVal (l : List Nat) : Nat :=
  l.foldl (fun a d => 10 * a + (d - 48)) 0

/-- Parse a non-empty all-digit byte string to a natural number. -/
def parseDigits (l : List Nat) : Option Nat :=
  if l ≠ [] ∧ l.all isDigit then some (digitsVal l) else none

/-- Models Python `int(bytes)` on ASCII decimal input: an optional leading
minus sign followed by one or more digits; anything else raises `ValueError`,
modelled as `none`. (Surrounding whitespace, a leading plus sign and
underscore separators, which Python also accepts, are not exercised by any
input considered here and are not modelled.) -/
def pyInt (b : List Nat) : Option Int :=
  match b with
  | 45 :: ds => (parseDigits ds).map (fun n => -(n : Int))
  | ds => (parseDigits ds).map (fun n => (n : Int))

/-! ## Response values (dredispy/data.py)

`RedisData` covers the concrete response classes of data.py that the
command handlers construct: `RedisString` (simple string), `RedisBulkString`,
`RedisNullBulkString`, `RedisInteger`, `RedisArray` and
`RedisMultipleResponses`. -/

/-- The response-value classes of dredispy/data.py. -/
inductive RedisData : Type where
  | str (data : List Nat)
  | bulk (data : List Nat)
  | nullBulk
  | int (data : Int)
  | array (items : List RedisData)
  | multi (responses : List RedisData)

mutual

/-- Models `to_resp` of data.py: serialize a response value to wire bytes.
`RedisString.to_resp` is `+<data>CRLF`; `RedisBulkString.to_resp` is
`$<len>CRLF<data>CRLF`; `RedisNullBulkString.to_resp` is `$-1CRLF`;
`RedisInteger.to_resp` is `:<decimal>CRLF`; `RedisArray.to_resp` is
`*<n>CRLF` followed by each item serialized; `RedisMultipleResponses.to_resp`
concatenates the serialized responses with no wrapper. -/
def toResp : RedisData → List Nat
  | .str data => 43 :: (data ++ crlfBytes)
  | .bulk data => 36 :: (natDigits data.length ++ crlfBytes ++ data ++ crlfBytes)
  | .nullBulk => [36, 45, 49, 13, 10]
  | .int data => 58 :: (intDigits data ++ crlfBytes)
  | .array items => 42 :: (natDigits items.length ++ crlfBytes ++ toRespList items)
  | .multi responses => toRespList responses

/-- Serialize each element in turn and concatenate (the per-item
`i.to_resp()` loop inside `RedisArray.to_resp` / `RedisMultipleResponses.to_resp`). -/
def toRespList : List RedisData → List Nat
  | [] => []
  | x :: xs => toResp x ++ toRespList xs

end

/-! ## Request parser (server.py, `Connection.command_stream`)

The source parser is a generator that pulls bytes from the socket on demand
(`read` / `ensure_buffer`) and suspends while the frame is incomplete.  The
embedding takes the complete frame bytes up front; a situation in which the
source would await more input (or abort: failed assertion, `Cannot read
arrays`, unexpected type byte, `int()` failure) is `none`. -/

/-- A parsed command-vector element.  The source appends the raw payload `d`
of each part to `cmd` regardless of its RESP type, so an Integer part
contributes a Python `int` while the other types contribute `bytes`. -/
inductive PyVal : Type where
  | bytes (b : List Nat)
  | int (n : Int)
deriving DecidableEq

/-- Index of the first CRLF in the buffer (Python `buffer.find(b"\r\n")`,
with -1-for-absent modelled as `none`). -/
def findCrlf : List Nat → Option Nat
  | 13 :: 10 :: _ => some 0
  | _ :: rest => (findCrlf rest).map Nat.succ
  | [] => none

/-- `read_to_crlf` of the source: drop the leading type byte, return the bytes
up to the first CRLF together with the remaining buffer after that CRLF. -/
def readToCrlf (buffer : List Nat) : Option (List Nat × List Nat) :=
  match findCrlf buffer with
  | none => none
  | some p => some ((buffer.drop 1).take (p - 1), buffer.drop (p + 2))

/-- Parse one element of the request array (the per-part body of the `for i in
range(array_len)` loop): dispatch on the type byte; `+`/`-` read to CRLF; `:`
reads to CRLF and converts with `int()`; `$` reads the length, takes that many
payload bytes and skips the trailing CRLF unchecked; `*` raises (`Cannot read
arrays`) and any other byte raises (`Unexpected client type`). -/
def parsePart (buffer : List Nat) : Option (PyVal × List Nat) :=
  match buffer with
  | [] => none
  | t :: _ =>
    if t = 43 ∨ t = 45 then
      (readToCrlf buffer).map (fun vr => (.bytes vr.1, vr.2))
    else if t = 58 then
      match readToCrlf buffer with
      | none => none
      | some (v, rest) => (pyInt v).map (fun n => (.int n, rest))
    else if t = 36 then
      match readToCrlf buffer with
      | none => none
      | some (lenBytes, rest) =>
        match pyInt lenBytes with
        | none => none
        | some (Int.ofNat strLen) =>
          some (.bytes (rest.take strLen), rest.drop (strLen + 2))
        | some (Int.negSucc _) => none
    else none

/-- Parse `n` elements in sequence, threading the buffer. -/
def parseParts : Nat → List Nat → Option (List PyVal × List Nat)
  | 0, buffer => some ([], buffer)
  | n + 1, buffer =>
    match parsePart buffer with
    | none => none
    | some (v, rest) =>
      match parseParts n rest with
      | none => none
      | some (vs, rest2) => some (v :: vs, rest2)

/-- One iteration of the outer `while True` loop of `command_stream`, applied
to a complete frame: assert the `*` type byte, read the array length, and
parse that many parts.  An `array_len` of `0` makes the source `continue`
without yielding a command, and a negative `array_len` makes the
`assert len(parts) == array_len` fail; both are `none` here. -/
def parseCommand (buffer : List Nat) : Option (List PyVal) :=
  match buffer with
  | [] => none
  | t :: _ =>
    if t = 42 then
      match findCrlf buffer with
      | none => none
      | some p =>
        match pyInt ((buffer.drop 1).take (p - 1)) with
        | none => none
        | some (Int.ofNat 0) => none
        | some (Int.ofNat (n + 1)) =>
          (parseParts (n + 1) (buffer.drop (p + 2))).map Prod.fst
        | some (Int.negSucc _) => none
    else none

/-! ## Keyspace and TTL engine (command.py, classes `DB` and `Storage`)

The source keeps `expiration_pq` as a `heapq` binary heap of mutable list
entries `[expires_at, count, key]`, compared lexicographically.  Every entry
carries a distinct `count` drawn from `itertools.count()`, so two entries
never compare beyond their `(expires_at, count)` head and the heap behaves
exactly as a priority queue on that pair.  The embedding keeps the queue as a
list sorted by `(expires_at, count)`: `heappush` is ordered insertion,
`heappop` takes the head, and `expiration_pq[0]` is the head.  Tombstoning
(`entry[-1] = self._removed_sentinel`) mutates the entry in place without
changing its heap position; here it rewrites the entry (identified by its
unique `count`) inside the queue, with `key = none` standing for the
sentinel.  `_expiration_key_finder` maps a key to its live entry; since a
live entry is determined by its `(expires_at, count)` head, the finder stores
that pair. -/

/-- One `[expires_at, count, key]` heap entry; `key = none` is the
removed-sentinel tombstone. -/
structure TTLEntry : Type where
  expiresAt : Int
  count : Nat
  key : Option (List Nat)
deriving DecidableEq

/-- Lookup in an insertion-ordered association list (Python `dict.get`). -/
def assocGet {α β : Type} [DecidableEq α] (m : List (α × β)) (k : α) : Option β :=
  match m with
  | [] => none
  | (k2, v) :: rest => if k2 = k then some v else assocGet rest k

/-- Update/insert in an insertion-ordered association list (Python
`dict[k] = v`: an existing key keeps its position, a fresh key is appended). -/
def assocSet {α β : Type} [DecidableEq α] (m : List (α × β)) (k : α) (v : β) :
    List (α × β) :=
  match m with
  | [] => [(k, v)]
  | (k2, v2) :: rest =>
    if k2 = k then (k2, v) :: rest else (k2, v2) :: assocSet rest k v

/-- Remove a key from an association list (Python `dict.pop(k, None)` /
`del dict[k]`). -/
def assocErase {α β : Type} [DecidableEq α] (m : List (α × β)) (k : α) :
    List (α × β) :=
  match m with
  | [] => []
  | (k2, v2) :: rest => if k2 = k then rest else (k2, v2) :: assocErase rest k

/-- Strict lexicographic order on the compared head of a heap entry. -/
def entryLt (a b : TTLEntry) : Bool :=
  a.expiresAt < b.expiresAt ∨ (a.expiresAt = b.expiresAt ∧ a.count < b.count)

/-- `heapq.heappush`: insert keeping the queue sorted by `(expires_at, count)`. -/
def pqInsert (e : TTLEntry) : List TTLEntry → List TTLEntry
  | [] => [e]
  | x :: xs => if entryLt e x then e :: x :: xs else x :: pqInsert e xs

/-- The state of one logical database (class `DB`): the key/value `dict`, the
expiry priority queue, the key-to-live-entry finder and the `itertools.count`
cursor.  The `index` attribute is only used in log lines and is omitted. -/
structure DBState : Type where
  kv : List (List Nat × List Nat)
  expirationPq : List TTLEntry
  keyFinder : List (List Nat × (Int × Nat))
  counter : Nat
deriving DecidableEq

/-- `DB.__init__`: all parts empty. -/
def emptyDB : DBState := ⟨[], [], [], 0⟩

/-- `DB.is_key_active`: a key with no finder entry is active; otherwise the
entry is active while `expires_at >= now`.  (The `if not entry` test in the
source is true only for a missing entry: a present entry is a non-empty
Python list, which is always truthy.) -/
def isKeyActive (db : DBState) (key : List Nat) (now : Int) : Bool :=
  match assocGet db.keyFinder key with
  | none => true
  | some (expiresAt, _) => expiresAt ≥ now

/-- `DB.get_active_key`: the stored value if the key is present and active. -/
def getActiveKey (db : DBState) (key : List Nat) (now : Int) : Option (List Nat) :=
  match assocGet db.kv key with
  | none => none
  | some value => if isKeyActive db key now then some value else none

/-- `DB.remove_key_from_expiration`: pop the finder entry and tombstone the
corresponding heap entry in place (identified by its unique count). -/
def removeKeyFromExpiration (db : DBState) (key : List Nat) : DBState :=
  match assocGet db.keyFinder key with
  | none => db
  | some (_, c) =>
    { db with
      keyFinder := assocErase db.keyFinder key
      expirationPq := db.expirationPq.map
        (fun e => if e.count = c then { e with key := none } else e) }

/-- `DB.set_expiry_for_key`: tombstone any previous entry for the key, then
push a fresh live entry at `now + milliseconds` and record it in the finder. -/
def setExpiryForKey (db : DBState) (key : List Nat) (milliseconds : Int)
    (now : Int) : DBState :=
  let expiresAt := now + milliseconds
  let db1 := if (assocGet db.keyFinder key).isSome
    then removeKeyFromExpiration db key else db
  let c := db1.counter
  { db1 with
    keyFinder := assocSet db1.keyFinder key (expiresAt, c)
    expirationPq := pqInsert ⟨expiresAt, c, some key⟩ db1.expirationPq
    counter := c + 1 }

/-- Loop body of `DB.pop_expiration_key` on the raw queue and finder: pop
entries until a non-tombstone appears; delete it from the finder and return
its key.  Returns `none` when the queue runs out. -/
def popExpirationAux : List TTLEntry → List (List Nat × (Int × Nat)) →
    Option (List Nat) × List TTLEntry × List (List Nat × (Int × Nat))
  | [], finder => (none, [], finder)
  | e :: rest, finder =>
    match e.key with
    | some k => (some k, rest, assocErase finder k)
    | none => popExpirationAux rest finder

/-- `DB.pop_expiration_key` as a state transformer on `DBState`. -/
def popExpirationKey (db : DBState) : Option (List Nat) × DBState :=
  let r := popExpirationAux db.expirationPq db.keyFinder
  (r.1, { db with expirationPq := r.2.1, keyFinder := r.2.2 })

/-- Popping from a non-empty queue consumes at least one entry. -/
theorem popExpirationAux_length_lt (pq : List TTLEntry)
    (finder : List (List Nat × (Int × Nat))) (h : pq ≠ []) :
    (popExpirationAux pq finder).2.1.length < pq.length := by
  induction pq with
  | nil => exact absurd rfl h
  | cons e rest ih =>
    cases hk : e.key with
    | some k => simp [popExpirationAux, hk]
    | none =>
      simp only [popExpirationAux, hk]
      cases rest with
      | nil => simp [popExpirationAux]
      | cons f rest2 =>
        exact Nat.lt_trans (ih (by simp)) (by simp)

/-- The per-DB `while` loop of `Storage.process_periodic_task`: while the
queue is non-empty and its head has expired, pop a key (skipping tombstones)
and, if the popped key is truthy (Python `if not key: continue` — `None` and
the empty byte string are falsy), delete it from the key/value map. -/
def periodicLoop (db : DBState) (now : Int) : DBState :=
  match h : db.expirationPq with
  | [] => db
  | e :: _ =>
    if e.expiresAt < now then
      let r := popExpirationKey db
      let db2 :=
        match r.1 with
        | none => r.2
        | some k => if k = [] then r.2 else { r.2 with kv := assocErase r.2.kv k }
      periodicLoop db2 now
    else db
termination_by db.expirationPq.length
decreasing_by
  have hne : db.expirationPq ≠ [] := by rw [h]; simp
  have hlt := popExpirationAux_length_lt db.expirationPq db.keyFinder hne
  cases hr : (popExpirationAux db.expirationPq db.keyFinder).1 with
  | none =>
    simpa [popExpirationKey, hr] using hlt
  | some k =>
    by_cases hk : k = [] <;>
      simpa [popExpirationKey, hr, hk] using hlt

/-- `Storage.__init__` builds 16 DBs; `process_periodic_task` runs the
eviction loop on each of them with a single `now`. -/
def processPeriodicTask (dbs : List DBState) (now : Int) : List DBState :=
  dbs.map (fun db => periodicLoop db now)

/-! ## Structured errors (data.py) and command handlers (command.py) -/

/-- The structured `RedisError` hierarchy of data.py.  Errors constructed with
a formatted message keep their distinguishing payload structurally:
`unknownCommand` carries the raw command bytes
(`unknown command <command.decode()>`), `wrongNumberOfArguments` carries the
raw command bytes, `synErr` is `CommandSyntaxError` (message `syntax error`),
`pubsubUnknownSub` carries the subcommand bytes, and `redisError` is a plain
`RedisError` with a literal message. -/
inductive RedisErr : Type where
  | redisError (msg : String)
  | unknownCommand (command : List Nat)
  | wrongNumberOfArguments (command : List Nat)
  | synErr
  | pubsubUnknownSub (sub : List Nat)
deriving DecidableEq

/-- An error escaping a handler: either a structured `RedisError` or an
unstructured Python exception kind. -/
inductive HandlerErr : Type where
  | redis (e : RedisErr)
  | indexError
  | typeError
  | attributeError
  | assertionError
deriving DecidableEq

/-- `ensure_int` of command.py: `int(v)`, with `ValueError` converted into
`RedisError("value is not an integer or out of range")`. -/
def ensureInt (v : List Nat) : Except RedisErr Int :=
  match pyInt v with
  | some n => .ok n
  | none => .error (.redisError "value is not an integer or out of range")

/-- Number of logical databases: `Storage.__init__` builds `DB(i) for i in
range(16)`, so `len(self.storage.dbs)` is 16. -/
def storageNumDbs : Nat := 16

/-- Simple-String `OK` (`RedisString(b"OK")`). -/
def respOK : RedisData := .str [79, 75]

/-- `CommandHandler.cmd_select`: exactly one argument, parsed with
`ensure_int`; an index below 0 or above `len(self.storage.dbs)` raises
`RedisError("invalid DB index")`; otherwise `connection.db_index` is set and
the reply is `OK`.  The second result component is `connection.db_index`
after the call; a raised error leaves it at the incoming value because the
assignment is never reached. -/
def cmdSelect (command : List Nat) (args : List (List Nat)) (dbIndex : Int) :
    Except RedisErr RedisData × Int :=
  match args with
  | [a] =>
    match ensureInt a with
    | .error e => (.error e, dbIndex)
    | .ok n =>
      if n < 0 ∨ n > (storageNumDbs : Int) then
        (.error (.redisError "invalid DB index"), dbIndex)
      else (.ok respOK, n)
  | _ => (.error (.wrongNumberOfArguments command), dbIndex)

/-- The byte strings the SET option parser compares against. -/
def bytesNx : List Nat := [110, 120]

/-- Lowercase `xx`. -/
def bytesXx : List Nat := [120, 120]

/-- Lowercase `ex`. -/
def bytesEx : List Nat := [101, 120]

/-- Lowercase `px`. -/
def bytesPx : List Nat := [112, 120]

/-- The option-scanning `while i < len(args)` loop of `cmd_set`, indexing
`args` absolutely from `i = 2`.  The `if i >= len(args)` guards before
`args[i+1]` are kept exactly as in the source: they are vacuous there
(`args[i]` was just read, so `i < len(args)`), and a missing operand after
`ex`/`px` reaches `args[i+1]`, which raises `IndexError`.  Option bytes that
match none of `nx`/`xx`/`ex`/`px` are skipped without effect. -/
def parseSetOpts (args : List (List Nat)) (i : Nat) (nx xx : Bool)
    (ex px : Option Int) : Except HandlerErr (Bool × Bool × Option Int × Option Int) :=
  match hx : args[i]? with
  | none => .ok (nx, xx, ex, px)
  | some a =>
    if a = bytesNx then parseSetOpts args (i + 1) true xx ex px
    else if a = bytesXx then parseSetOpts args (i + 1) nx true ex px
    else if a = bytesEx then
      if i ≥ args.length then .error (.redis .synErr)
      else
        match args[i + 1]? with
        | none => .error .indexError
        | some operand =>
          match ensureInt operand with
          | .error e => .error (.redis e)
          | .ok n => parseSetOpts args (i + 2) nx xx (some n) px
    else if a = bytesPx then
      if i ≥ args.length then .error (.redis .synErr)
      else
        match args[i + 1]? with
        | none => .error .indexError
        | some operand =>
          match ensureInt operand with
          | .error e => .error (.redis e)
          | .ok n => parseSetOpts args (i + 2) nx xx ex (some n)
    else parseSetOpts args (i + 1) nx xx ex px
termination_by args.length - i
decreasing_by
  all_goals
    have : i < args.length := by
      by_contra hge
      rw [List.getElem?_eq_none (by omega)] at hx
      exact Option.noConfusion hx
    omega

/-- Python truthiness of the `ex`/`px` locals (`None` and `0` are falsy). -/
def optTruthy : Option Int → Bool
  | none => false
  | some n => n ≠ 0

/-- `CommandHandler.cmd_set`: at least two arguments; scan the option tail;
`nx`+`xx` or truthy `ex`+`px` is a syntax error; an `nx` write to an active
key or an `xx` write to an inactive key is a no-op returning the null bulk
string; otherwise write the value, then set the expiry from a truthy `px`
(milliseconds) or a truthy `ex` (seconds times 1000), or clear any expiry,
and reply `OK`.  The DB in the result is the state after the call. -/
def cmdSet (command : List Nat) (args : List (List Nat)) (db : DBState)
    (now : Int) : Except HandlerErr (RedisData × DBState) :=
  match args with
  | key :: value :: _ =>
    match (if args.length > 2 then parseSetOpts args 2 false false none none
           else .ok (false, false, none, none)) with
    | .error e => .error e
    | .ok (nx, xx, ex, px) =>
      if xx ∧ nx then .error (.redis .synErr)
      else if optTruthy ex ∧ optTruthy px then .error (.redis .synErr)
      else
        let keyExists := (getActiveKey db key now).isSome
        if keyExists ∧ nx then .ok (.nullBulk, db)
        else if ¬keyExists ∧ xx then .ok (.nullBulk, db)
        else
          let db1 := { db with kv := assocSet db.kv key value }
          let db2 :=
            if h : optTruthy px then
              setExpiryForKey db1 key (px.get (by cases px <;> simp_all [optTruthy])) now
            else if h2 : optTruthy ex then
              setExpiryForKey db1 key ((ex.get (by cases ex <;> simp_all [optTruthy])) * 1000) now
            else removeKeyFromExpiration db1 key
          .ok (respOK, db2)
  | _ => .error (.redis (.wrongNumberOfArguments command))

/-! ## Command dispatch (command.py, `CommandProcessor.process_command`) -/

/-- `PUB_SUB_COMMANDS` of command.py. -/
def pubSubCommands : List (List Nat) :=
  [ [115, 117, 98, 115, 99, 114, 105, 98, 101],
    [112, 115, 117, 98, 115, 99, 114, 105, 98, 101],
    [117, 110, 115, 117, 98, 115, 99, 114, 105, 98, 101],
    [112, 117, 110, 115, 117, 98, 115, 99, 114, 105, 98, 101],
    [112, 117, 98, 108, 105, 115, 104],
    [112, 117, 98, 115, 117, 98] ]

/-- The verbs for which `CommandHandler` defines a `cmd_<verb>` method:
ping, info, select, keys, get, set, mget, mset. -/
def commandHandlerVerbs : List (List Nat) :=
  [ [112, 105, 110, 103],
    [105, 110, 102, 111],
    [115, 101, 108, 101, 99, 116],
    [107, 101, 121, 115],
    [103, 101, 116],
    [115, 101, 116],
    [109, 103, 101, 116],
    [109, 115, 101, 116] ]

/-- The verbs for which `PubSubHandler` defines a `cmd_<verb>` method:
subscribe, unsubscribe, psubscribe, punsubscribe, publish, pubsub. -/
def pubsubHandlerVerbs : List (List Nat) := pubSubCommands

/-- `command.decode().lower()[:50]` of `process_command` (ASCII range). -/
def cleanCommand (command : List Nat) : List Nat :=
  (bytesLower command).take 50

/-- The byte string `ping`. -/
def bytesPing : List Nat := [112, 105, 110, 103]

/-- Connection mode byte string `normal`. -/
def stateNormal : List Nat := [110, 111, 114, 109, 97, 108]

/-- Connection mode byte string `pubsub`. -/
def statePubsub : List Nat := [112, 117, 98, 115, 117, 98]

/-- The handler-resolution and mode-check part of
`CommandProcessor.process_command` (lines 515-540), ending where the resolved
handler would be invoked: clean the verb, look up `cmd_<verb>` on the pub/sub
handler or the command handler (`getattr` yields `None` for a missing
method, raising `UnknownCommandError` with the original command bytes), then
enforce the pubsub-mode restriction.  The result is the cleaned verb the
handler call would dispatch on.  An empty command vector fails the
`assert len(cmd_parts) > 0`. -/
def processCommandDispatch (cmdParts : List (List Nat)) (connState : List Nat) :
    Except HandlerErr (List Nat) :=
  match cmdParts with
  | [] => .error .assertionError
  | command :: _ =>
    let clean := cleanCommand command
    let handlerExists :=
      if clean ∈ pubSubCommands then clean ∈ pubsubHandlerVerbs
      else clean ∈ commandHandlerVerbs
    if ¬handlerExists then .error (.redis (.unknownCommand command))
    else if connState = statePubsub ∧ clean ∉ pubSubCommands ∧ clean ≠ bytesPing then
      .error (.redis (.redisError
        "only (P)SUBSCRIBE / (P)UNSUBSCRIBE / PING / QUIT allowed in this context"))
    else .ok clean

/-! ## Pub/sub handler (command.py, class `PubSubHandler`) -/

/-- Connections are identified by an abstract id; the embedding never needs
the socket.  `Connection` (server.py) defines no `__len__`, so Python
`len(connection)` raises `TypeError`; see `connLen`. -/
abbrev ConnId : Type := Nat

/-- Python `len()` applied to a `Connection` object: the class defines no
`__len__`, so the call raises `TypeError`, modelled as `none`. -/
def connLen (_ : ConnId) : Option Nat := none

/-- The subscription indices owned by `PubSubHandler`:
`_channel_subscriptions` (channel to subscriber set, a `defaultdict` of
`WeakSet`), `_connection_channel_map` and `_connection_pattern_channel_map`
(connection to channel set / pattern set).  Sets are duplicate-free lists. -/
structure PubSubState : Type where
  channelSubscriptions : List (List Nat × List ConnId)
  connectionChannelMap : List (ConnId × List (List Nat))
  connectionPatternMap : List (ConnId × List (List Nat))
deriving DecidableEq

/-- The empty pub/sub state (`PubSubHandler.__init__`). -/
def emptyPubSub : PubSubState := ⟨[], [], []⟩

/-- Add to a set kept as a duplicate-free list (Python `set.add`). -/
def setAdd {α : Type} [DecidableEq α] (s : List α) (x : α) : List α :=
  if x ∈ s then s else s ++ [x]

/-- `_ensure_connection`: `setdefault` both connection maps to the empty set. -/
def ensureConnection (ps : PubSubState) (conn : ConnId) : PubSubState :=
  { ps with
    connectionChannelMap :=
      match assocGet ps.connectionChannelMap conn with
      | some _ => ps.connectionChannelMap
      | none => ps.connectionChannelMap ++ [(conn, [])]
    connectionPatternMap :=
      match assocGet ps.connectionPatternMap conn with
      | some _ => ps.connectionPatternMap
      | none => ps.connectionPatternMap ++ [(conn, [])] }

/-- `_current_connection_subscriptions`: channel count plus pattern count for
the connection (0 for a missing map entry, which `_ensure_connection`
precludes in every caller). -/
def currentConnectionSubscriptions (ps : PubSubState) (conn : ConnId) : Nat :=
  ((assocGet ps.connectionChannelMap conn).getD []).length +
    ((assocGet ps.connectionPatternMap conn).getD []).length

/-- The byte string `subscribe`. -/
def bytesSubscribe : List Nat := [115, 117, 98, 115, 99, 114, 105, 98, 101]

/-- The byte string `psubscribe`. -/
def bytesPsubscribe : List Nat := [112, 115, 117, 98, 115, 99, 114, 105, 98, 101]

/-- The per-channel loop of `cmd_subscribe`: add the connection to the
channel's subscriber set and the channel to the connection's channel set,
then append the `["subscribe", channel, count]` response. -/
def subscribeLoop (conn : ConnId) (channels : List (List Nat)) (ps : PubSubState)
    (acc : List RedisData) : List RedisData × PubSubState :=
  match channels with
  | [] => (acc, ps)
  | channel :: rest =>
    let subs := (assocGet ps.channelSubscriptions channel).getD []
    let ps1 := { ps with
      channelSubscriptions :=
        assocSet ps.channelSubscriptions channel (setAdd subs conn)
      connectionChannelMap :=
        assocSet ps.connectionChannelMap conn
          (setAdd ((assocGet ps.connectionChannelMap conn).getD []) channel) }
    let resp := RedisData.array [ .bulk bytesSubscribe, .bulk channel,
      .int (currentConnectionSubscriptions ps1 conn) ]
    subscribeLoop conn rest ps1 (acc ++ [resp])

/-- `PubSubHandler.cmd_subscribe`: at least one channel; ensure the
connection maps, run the per-channel loop, set `connection.state = "pubsub"`
and return the collected responses.  The middle result component is the
connection state after the call. -/
def cmdSubscribe (command : List Nat) (args : List (List Nat)) (conn : ConnId)
    (connState : List Nat) (ps : PubSubState) :
    Except RedisErr (RedisData × List Nat × PubSubState) :=
  if args = [] then .error (.wrongNumberOfArguments command)
  else
    let r := subscribeLoop conn args (ensureConnection ps conn) []
    .ok (.multi r.1, statePubsub, r.2)

/-- The per-pattern loop of `cmd_psubscribe`: add the pattern to the
connection's pattern set, then append the `["psubscribe", pattern, count]`
response. -/
def psubscribeLoop (conn : ConnId) (patterns : List (List Nat)) (ps : PubSubState)
    (acc : List RedisData) : List RedisData × PubSubState :=
  match patterns with
  | [] => (acc, ps)
  | pat :: rest =>
    let ps1 := { ps with
      connectionPatternMap :=
        assocSet ps.connectionPatternMap conn
          (setAdd ((assocGet ps.connectionPatternMap conn).getD []) pat) }
    let resp := RedisData.array [ .bulk bytesPsubscribe, .bulk pat,
      .int (currentConnectionSubscriptions ps1 conn) ]
    psubscribeLoop conn rest ps1 (acc ++ [resp])

/-- `PubSubHandler.cmd_psubscribe`: at least one pattern; ensure the
connection maps, run the per-pattern loop and return the collected
responses.  `connection.state` is never assigned, so the middle result
component is the incoming state unchanged. -/
def cmdPsubscribe (command : List Nat) (args : List (List Nat)) (conn : ConnId)
    (connState : List Nat) (ps : PubSubState) :
    Except RedisErr (RedisData × List Nat × PubSubState) :=
  if args = [] then .error (.wrongNumberOfArguments command)
  else
    let r := psubscribeLoop conn args (ensureConnection ps conn) []
    .ok (.multi r.1, connState, r.2)

/-- Glob matching as performed by `build_re_from_pattern` followed by
`.match`: the source substitutes `*` (byte 42) by `.*` and `?` (byte 63) by
`.`, wraps the result in `^...$` and matches the channel against it, so a
match must cover the whole subject string.  This function implements that
semantics directly for patterns made of `*`, `?` and literal bytes; the
source additionally passes backslash escapes and regex character classes
through to the regex engine, which no pattern considered here contains. -/
def globMatch : List Nat → List Nat → Bool
  | [], [] => true
  | [], _ :: _ => false
  | 42 :: ps, s =>
    globMatch ps s ||
      (match s with
       | [] => false
       | _ :: s2 => globMatch (42 :: ps) s2)
  | 63 :: ps, s =>
    (match s with
     | [] => false
     | _ :: s2 => globMatch ps s2)
  | c :: ps, s =>
    (match s with
     | [] => false
     | d :: s2 => c = d && globMatch ps s2)
termination_by pat s => pat.length + s.length

/-- The byte string `message`. -/
def bytesMessage : List Nat := [109, 101, 115, 115, 97, 103, 101]

/-- The byte string `pmessage`. -/
def bytesPmessage : List Nat := [112, 109, 101, 115, 115, 97, 103, 101]

/-- The `(pattern, connection)` pairs collected by `cmd_publish`: for each
entry of `_connection_pattern_channel_map` in order, each held pattern whose
compiled glob matches the channel. -/
def patternConnectionTuples (connPatterns : List (ConnId × List (List Nat)))
    (channel : List Nat) : List (List Nat × ConnId) :=
  connPatterns.flatMap (fun p =>
    (p.2.filter (fun pat => globMatch pat channel)).map (fun pat => (pat, p.1)))

/-- `PubSubHandler.cmd_publish`: exactly two arguments.  Every connection
subscribed to the channel is sent `["message", channel, message]`; every
matching `(pattern, connection)` pair is sent `["pmessage", pattern,
message]` (the source builds this frame without the channel).  The reply is
the subscriber count plus the pair count.  The second result component lists
the writes handed to the pool, `(connection, frame)` in spawn order. -/
def cmdPublish (command : List Nat) (args : List (List Nat)) (ps : PubSubState) :
    Except RedisErr (RedisData × List (ConnId × RedisData)) :=
  match args with
  | [channel, message] =>
    let channelConnections := (assocGet ps.channelSubscriptions channel).getD []
    let tuples := patternConnectionTuples ps.connectionPatternMap channel
    let messageData := RedisData.array
      [ .bulk bytesMessage, .bulk channel, .bulk message ]
    let channelWrites := channelConnections.map (fun c => (c, messageData))
    let patternWrites := tuples.map (fun t =>
      (t.2, RedisData.array [ .bulk bytesPmessage, .bulk t.1, .bulk message ]))
    .ok (.int ((channelConnections.length : Int) + tuples.length),
      channelWrites ++ patternWrites)
  | _ => .error (.wrongNumberOfArguments command)

/-- The byte string `channels`. -/
def bytesChannels : List Nat := [99, 104, 97, 110, 110, 101, 108, 115]

/-- The byte string `numsub`. -/
def bytesNumsub : List Nat := [110, 117, 109, 115, 117, 98]

/-- The byte string `numpat`. -/
def bytesNumpat : List Nat := [110, 117, 109, 112, 97, 116]

/-- `sum(map(lambda x: len(x), ...keys()))` over the connection keys of
`_connection_pattern_channel_map`: Python `len` of a `Connection` raises
`TypeError` (see `connLen`), so the sum only completes on an empty key
list. -/
def sumConnLens : List ConnId → Option Nat
  | [] => some 0
  | c :: rest =>
    match connLen c with
    | none => none
    | some n => (sumConnLens rest).map (n + ·)

/-- `PubSubHandler.cmd_pubsub`: dispatch on the lowercased subcommand.
`channels` filters channels with at least one subscriber by the optional
glob pattern (absent pattern: the source compiles `^.*$`, which matches
everything); `numsub` interleaves each queried channel with its subscriber
count; `numpat` runs `sumConnLens` over the map keys, raising `TypeError` on
the first connection; anything else raises a `RedisError` naming the
subcommand. -/
def cmdPubsub (command : List Nat) (args : List (List Nat)) (ps : PubSubState) :
    Except HandlerErr RedisData :=
  match args with
  | [] => .error (.redis (.wrongNumberOfArguments command))
  | sub0 :: subArgs =>
    let sub := bytesLower sub0
    if sub = bytesChannels then
      match subArgs with
      | [] =>
        .ok (.array ((ps.channelSubscriptions.filter
          (fun p => p.2.length > 0)).map (fun p => .bulk p.1)))
      | [pat] =>
        .ok (.array ((ps.channelSubscriptions.filter
          (fun p => globMatch pat p.1 && p.2.length > 0)).map (fun p => .bulk p.1)))
      | _ => .error (.redis (.wrongNumberOfArguments command))
    else if sub = bytesNumsub then
      .ok (.array (subArgs.flatMap (fun channel =>
        [ .bulk channel,
          .int ((assocGet ps.channelSubscriptions channel).getD []).length ])))
    else if sub = bytesNumpat then
      match sumConnLens (ps.connectionPatternMap.map Prod.fst) with
      | none => .error .typeError
      | some n => .ok (.int n)
    else .error (.redis (.pubsubUnknownSub sub))

/-! ## Server connection loop (server.py)

`Connection.__init__` assigns only `self.socket` and `self.address`; the
`state` and `db_index` attributes read by `process_command` and the handlers
are never created, so reading either raises `AttributeError`.
`RedisServer.connection_handler` iterates the parsed command stream and
calls `self.command_processor.process_command(cmd)` — one positional
argument for a method whose signature demands `(cmd_parts, connection)`. -/

/-- The attribute names assigned in `Connection.__init__` (server.py). -/
def connectionInitAttrs : List String := ["socket", "address"]

/-- The positional parameters of `CommandProcessor.process_command` after the
bound `self`, none of which has a default. -/
def processCommandParams : List String := ["cmd_parts", "connection"]

/-- Number of positional arguments the call site in
`RedisServer.connection_handler` supplies (`process_command(cmd)`). -/
def connectionHandlerCallArgCount : Nat := 1

/-- Python positional-argument binding for a method with `params` positional
parameters of which the last `defaults` have default values: a call with `n`
positional arguments binds successfully iff it covers every non-default
parameter and does not overflow. -/
def pyBindOk (params : List String) (defaults : Nat) (n : Nat) : Bool :=
  params.length - defaults ≤ n ∧ n ≤ params.length

/-- The body of `process_command` run against a freshly constructed
`Connection`: after handler resolution, line 534 reads `connection.state`,
which a fresh connection does not have, raising `AttributeError`. -/
def processCommandOnFreshConnection (cmdParts : List (List Nat)) :
    Except HandlerErr (List Nat) :=
  match cmdParts with
  | [] => .error .assertionError
  | command :: _ =>
    let clean := cleanCommand command
    let handlerExists :=
      if clean ∈ pubSubCommands then clean ∈ pubsubHandlerVerbs
      else clean ∈ commandHandlerVerbs
    if ¬handlerExists then .error (.redis (.unknownCommand command))
    else if "state" ∈ connectionInitAttrs then .ok clean
    else .error .attributeError

/-- The `process_command(cmd)` call made by `connection_handler`: Python
binds the positional arguments first, raising `TypeError` when the call does
not cover the `connection` parameter; only a successful binding runs the
body. -/
def callProcessCommand (cmdParts : List (List Nat)) : Except HandlerErr (List Nat) :=
  if pyBindOk processCommandParams 0 connectionHandlerCallArgCount then
    processCommandOnFreshConnection cmdParts
  else .error .typeError

/-- The `for cmd in connection.command_stream()` loop of
`connection_handler` (lines 118-134) over an already-parsed command stream:
a structured `RedisError` is written back and the loop continues; any other
exception escapes to the outer `except`, ending the loop; the `finally`
always closes the socket.  The result is the per-command outcomes written
before the connection closed (`.ok` for a reply, `.error` for an error
frame). -/
def connectionHandlerLoop (cmds : List (List (List Nat))) :
    List (Except RedisErr (List Nat)) :=
  match cmds with
  | [] => []
  | cmd :: rest =>
    match callProcessCommand cmd with
    | .ok r => .ok r :: connectionHandlerLoop rest
    | .error (.redis e) => .error e :: connectionHandlerLoop rest
    | .error _ => []

/-- `RedisServer.connection_handler` in full: the per-command outcomes that
were written, paired with whether the socket was closed.  The `finally`
block closes the socket on every exit path — normal stream end and escaped
exception alike — so the flag is unconditionally true. -/
def connectionHandler (cmds : List (List (List Nat))) :
    List (Except RedisErr (List Nat)) × Bool :=
  (connectionHandlerLoop cmds, true)

/-! ## Lemmas: decimal digits -/

/-- Every byte emitted by `digitsRev` is an ASCII digit. -/
theorem digitsRev_isDigit (n : Nat) : ∀ d ∈ digitsRev n, isDigit d = true := by
  induction n using Nat.strong_induction_on with
  | _ n ih =>
    match n with
    | 0 => intro d hd; simp [digitsRev] at hd
    | m + 1 =>
      intro d hd
      rw [digitsRev] at hd
      rcases List.mem_cons.mp hd with h1 | h2
      · subst h1; simp [isDigit]; omega
      · exact ih ((m + 1) / 10) (Nat.div_lt_self (Nat.succ_pos m) (by omega)) d h2

/-- Every byte of `natDigits n` is an ASCII digit. -/
theorem natDigits_isDigit (n : Nat) : ∀ d ∈ natDigits n, isDigit d = true := by
  intro d hd
  unfold natDigits at hd
  by_cases h : n = 0
  · simp [h] at hd; subst hd; simp [isDigit]
  · simp [h] at hd
    exact digitsRev_isDigit n d hd

/-- `natDigits` is never empty. -/
theorem natDigits_ne_nil (n : Nat) : natDigits n ≠ [] := by
  unfold natDigits
  by_cases h : n = 0
  · simp [h]
  · simp only [h, if_false]
    match hm : n, h with
    | m + 1, _ => rw [digitsRev]; simp

/-- Folding the digit accumulator over `digitsRev n` recovers `n`. -/
theorem foldr_digitsRev (n : Nat) :
    (digitsRev n).foldr (fun d a => 10 * a + (d - 48)) 0 = n := by
  induction n using Nat.strong_induction_on with
  | _ n ih =>
    match n with
    | 0 => simp [digitsRev]
    | m + 1 =>
      rw [digitsRev]
      simp only [List.foldr_cons]
      rw [ih ((m + 1) / 10) (Nat.div_lt_self (Nat.succ_pos m) (by omega))]
      omega

/-- `digitsVal` inverts `natDigits`. -/
theorem digitsVal_natDigits (n : Nat) : digitsVal (natDigits n) = n := by
  unfold natDigits digitsVal
  by_cases h : n = 0
  · simp [h]
  · simp only [h, if_false]
    rw [List.foldl_reverse]
    have := foldr_digitsRev n
    simpa using this

/-- `parseDigits` inverts `natDigits`. -/
theorem parseDigits_natDigits (n : Nat) : parseDigits (natDigits n) = some n := by
  unfold parseDigits
  rw [if_pos ⟨natDigits_ne_nil n, List.all_eq_true.mpr (natDigits_isDigit n)⟩,
    digitsVal_natDigits]

/-- `pyInt` inverts `natDigits`: the first digit is in 48..57, never the
minus sign 45, so the digit branch applies. -/
theorem pyInt_natDigits (n : Nat) : pyInt (natDigits n) = some (Int.ofNat n) := by
  rw [pyInt.eq_def]
  split
  · rename_i ds heq
    have h45 := natDigits_isDigit n 45 (by rw [heq]; exact List.mem_cons_self 45 ds)
    simp [isDigit] at h45
  · rw [parseDigits_natDigits]
    rfl

/-- ASCII digits are not CR. -/
theorem natDigits_ne_cr (n : Nat) : ∀ d ∈ natDigits n, d ≠ 13 := by
  intro d hd
  have := natDigits_isDigit n d hd
  simp [isDigit] at this
  omega

/-! ## Lemmas: frame parsing -/

/-- `findCrlf` steps over a non-CR head byte. -/
theorem findCrlf_cons_ne (d : Nat) (hd : d ≠ 13) (l : List Nat) :
    findCrlf (d :: l) = (findCrlf l).map Nat.succ := by
  rw [findCrlf.eq_def]
  split
  · rename_i heq
    injection heq with h1 _
    exact absurd h1 hd
  · rename_i x rest heq
    injection heq with _ h2
    rw [h2]
  · rename_i heq
    exact absurd heq (by simp)

/-- The first CRLF after a CR-free block is the appended one. -/
theorem findCrlf_append (ds : List Nat) (h : ∀ d ∈ ds, d ≠ 13) (rest : List Nat) :
    findCrlf (ds ++ 13 :: 10 :: rest) = some ds.length := by
  induction ds with
  | nil => rfl
  | cons d ds2 ih =>
    rw [List.cons_append, findCrlf_cons_ne d (h d (List.mem_cons_self d ds2)) _,
      ih (fun x hx => h x (List.mem_cons_of_mem d hx))]
    rfl

/-- `readToCrlf` on a type byte, a CR-free block, CRLF and a tail. -/
theorem readToCrlf_pre (t : Nat) (ht : t ≠ 13) (ds : List Nat)
    (h : ∀ d ∈ ds, d ≠ 13) (rest : List Nat) :
    readToCrlf (t :: (ds ++ 13 :: 10 :: rest)) = some (ds, rest) := by
  have hfind : findCrlf (t :: (ds ++ 13 :: 10 :: rest)) = some (ds.length + 1) := by
    rw [findCrlf_cons_ne t ht _, findCrlf_append ds h rest]
    rfl
  unfold readToCrlf
  rw [hfind]
  have e1 : (t :: (ds ++ 13 :: 10 :: rest)).drop 1 = ds ++ 13 :: 10 :: rest := rfl
  have e2 : ds.length + 1 - 1 = ds.length := by omega
  have e4 : (t :: (ds ++ 13 :: 10 :: rest)).drop (ds.length + 1 + 2) = rest := by
    have e3 : ds.length + 1 + 2 = (ds.length + 2) + 1 := by omega
    rw [e3, List.drop_succ_cons]
    rw [List.drop_append]
    rfl
  rw [e1]
  show some ((ds ++ 13 :: 10 :: rest).take (ds.length + 1 - 1),
    (t :: (ds ++ 13 :: 10 :: rest)).drop (ds.length + 1 + 2)) = some (ds, rest)
  rw [e2, List.take_left, e4]

/-- Parsing a serialized Bulk String off the front of a buffer yields its
payload byte-for-byte (embedded CRLF included, since the payload is read by
length, not by delimiter) and consumes exactly the serialized bytes. -/
theorem parsePart_bulk (s rest : List Nat) :
    parsePart (toResp (.bulk s) ++ rest) = some (.bytes s, rest) := by
  have hshape : toResp (.bulk s) ++ rest
      = 36 :: (natDigits s.length ++ 13 :: 10 :: (s ++ 13 :: 10 :: rest)) := by
    rw [toResp]
    simp [crlfBytes]
  have hr := readToCrlf_pre 36 (by omega) (natDigits s.length)
    (natDigits_ne_cr s.length) (s ++ 13 :: 10 :: rest)
  rw [hshape, parsePart.eq_def]
  simp only [hr, pyInt_natDigits, List.take_left, List.drop_append]
  norm_num

/-- Parsing `n` serialized Bulk Strings in sequence yields the payloads and
leaves the tail untouched. -/
theorem parseParts_bulks (l : List (List Nat)) (rest : List Nat) :
    parseParts l.length (toRespList (l.map .bulk) ++ rest)
      = some (l.map PyVal.bytes, rest) := by
  induction l with
  | nil => rfl
  | cons s l2 ih =>
    have hstep : parseParts (l2.length + 1)
        (toResp (.bulk s) ++ (toRespList (l2.map .bulk) ++ rest))
        = match parsePart (toResp (.bulk s) ++ (toRespList (l2.map .bulk) ++ rest)) with
          | none => none
          | some (v, r1) =>
            match parseParts l2.length r1 with
            | none => none
            | some (vs, r2) => some (v :: vs, r2) := rfl
    show parseParts (l2.length + 1)
      ((toResp (.bulk s) ++ toRespList (l2.map .bulk)) ++ rest) = _
    rw [List.append_assoc, hstep, parsePart_bulk s (toRespList (l2.map .bulk) ++ rest)]
    simp only [ih]
    rfl

/-- C10: serializing a non-empty list of byte-strings as a `RedisArray` of
`RedisBulkString` and feeding the bytes to the request parser returns exactly
the original byte-strings (embedded CRLF included) as the command vector. -/
theorem claim_C10 (l : List (List Nat)) (h : l ≠ []) :
    parseCommand (toResp (.array (l.map .bulk))) = some (l.map PyVal.bytes) := by
  cases l with
  | nil => exact absurd rfl h
  | cons s l2 =>
    have hshape : toResp (.array ((s :: l2).map .bulk))
        = 42 :: (natDigits (l2.length + 1) ++ 13 :: 10 ::
            toRespList ((s :: l2).map .bulk)) := by
      rw [toResp]
      simp [crlfBytes]
    have hfind : findCrlf (42 :: (natDigits (l2.length + 1) ++ 13 :: 10 ::
        toRespList ((s :: l2).map .bulk)))
        = some ((natDigits (l2.length + 1)).length + 1) := by
      rw [findCrlf_cons_ne 42 (by omega) _, findCrlf_append _ (natDigits_ne_cr _) _]
      rfl
    have hdrop : (42 :: (natDigits (l2.length + 1) ++ 13 :: 10 ::
        toRespList ((s :: l2).map .bulk))).drop
          ((natDigits (l2.length + 1)).length + 1 + 2)
        = toRespList ((s :: l2).map .bulk) := by
      have e3 : (natDigits (l2.length + 1)).length + 1 + 2
          = ((natDigits (l2.length + 1)).length + 2) + 1 := by omega
      rw [e3, List.drop_succ_cons, List.drop_append]
      rfl
    have htake : ((42 :: (natDigits (l2.length + 1) ++ 13 :: 10 ::
        toRespList ((s :: l2).map .bulk))).drop 1).take
          ((natDigits (l2.length + 1)).length + 1 - 1)
        = natDigits (l2.length + 1) := by
      rw [List.drop_succ_cons, List.drop_zero]
      have e2 : (natDigits (l2.length + 1)).length + 1 - 1
          = (natDigits (l2.length + 1)).length := by omega
      rw [e2, List.take_left]
    have hparts := parseParts_bulks (s :: l2) []
    rw [List.append_nil] at hparts
    simp only [List.length_cons] at hparts
    rw [hshape, parseCommand.eq_def]
    simp only [hfind, htake, hdrop, pyInt_natDigits, if_true, hparts]
    rfl

/-- C10 witness: a concrete round trip, with an element containing an
embedded CRLF. -/
theorem claim_C10_witness :
    ([[102, 111, 111], [97, 13, 10, 98]] : List (List Nat)) ≠ [] ∧
    parseCommand (toResp (.array ([[102, 111, 111], [97, 13, 10, 98]].map .bulk)))
      = some ([[102, 111, 111], [97, 13, 10, 98]].map PyVal.bytes) :=
  ⟨by decide, claim_C10 [[102, 111, 111], [97, 13, 10, 98]] (by decide)⟩

/-! ## Claims C1-C9 -/

/-- C1: `connection_handler` calls `process_command` with only the command
vector while the method requires a `connection` argument, and a freshly
constructed `Connection` initializes neither `state` nor `db_index`;
consequently every call — in particular the first — raises `TypeError`, an
unstructured exception rather than a `RedisError`, so no reply is written
for any command and the connection is closed. -/
theorem claim_C1 (cmd : List (List Nat)) (cmds : List (List (List Nat))) :
    callProcessCommand cmd = .error .typeError
    ∧ (∀ e : RedisErr, callProcessCommand cmd ≠ .error (.redis e))
    ∧ connectionHandler (cmd :: cmds) = ([], true)
    ∧ "state" ∉ connectionInitAttrs
    ∧ "db_index" ∉ connectionInitAttrs := by
  have hcall : callProcessCommand cmd = .error .typeError := by
    unfold callProcessCommand
    norm_num [pyBindOk, processCommandParams, connectionHandlerCallArgCount]
  refine ⟨hcall, fun e he => ?_, ?_, by decide, by decide⟩
  · rw [hcall] at he
    exact HandlerErr.noConfusion (Except.error.inj he)
  · unfold connectionHandler
    rw [connectionHandlerLoop, hcall]

/-- Key `a` (the key whose expiry is set and then cleared). -/
def c2KeyA : List Nat := [97]

/-- Key `b` (the key with a live far-future expiry). -/
def c2KeyB : List Nat := [98]

/-- DB state reached from empty by the `cmd_set` write paths
(`db.kv[key] = value` followed by `set_expiry_for_key` /
`remove_key_from_expiration`), all at `now = 0`:
SET a v PX 10, then SET a w (which tombstones the first heap entry),
then SET b x PX 100000.  The heap now holds a tombstone at expiry 10 ahead
of the live entry for `b` at expiry 100000. -/
def c2Db : DBState :=
  let d0 := emptyDB
  let d1 := setExpiryForKey { d0 with kv := assocSet d0.kv c2KeyA [118] } c2KeyA 10 0
  let d2 := removeKeyFromExpiration { d1 with kv := assocSet d1.kv c2KeyA [119] } c2KeyA
  setExpiryForKey { d2 with kv := assocSet d2.kv c2KeyB [120] } c2KeyB 100000 0

/-- The 16-DB storage vector with the scenario state in DB 0. -/
def c2Storage : List DBState := c2Db :: List.replicate 15 emptyDB

/-- C2 is violated: running the periodic task at `now = 5000` — after the
tombstone's stale expiry 10 but far before `b`'s expiry 100000 — evicts `b`
from the key/value map even though `b`'s TTL entry has
`expires_at = 100000 >= now` (because `pop_expiration_key` skips the
tombstone and returns whatever live key follows it, without rechecking that
key's expiry against `now`). -/
theorem claim_C2_bug :
    isKeyActive c2Db c2KeyB 5000 = true
    ∧ assocGet c2Db.kv c2KeyB = some [120]
    ∧ (processPeriodicTask c2Storage 5000).head?.map (fun db => assocGet db.kv c2KeyB)
      = some none := by
  have hc2 : c2Db = ⟨[([97], [119]), ([98], [120])],
      [⟨10, 0, none⟩, ⟨100000, 1, some [98]⟩], [([98], (100000, 1))], 2⟩ := by
    decide
  refine ⟨by decide, by decide, ?_⟩
  show ((c2Storage.map (fun db => periodicLoop db 5000)).head?.map
    (fun db => assocGet db.kv c2KeyB)) = some none
  rw [show c2Storage = c2Db :: List.replicate 15 emptyDB from rfl, List.map_cons,
    List.head?_cons]
  simp only [Option.map_some']
  have hstep1 : periodicLoop c2Db 5000
      = periodicLoop ⟨[([97], [119])], [], [], 2⟩ 5000 := by
    rw [hc2, periodicLoop]
    norm_num [popExpirationKey, popExpirationAux, assocErase, c2KeyB]
  have hstep2 : periodicLoop (⟨[([97], [119])], [], [], 2⟩ : DBState) 5000
      = ⟨[([97], [119])], [], [], 2⟩ := by
    rw [periodicLoop]
  rw [hstep1, hstep2]
  decide

/-- The verb bytes `select`. -/
def bytesSelect : List Nat := [115, 101, 108, 101, 99, 116]

/-- C3 is violated at the boundary: the guard in `cmd_select` is
`db_index > len(self.storage.dbs)` rather than `>=`, so `SELECT 16` — an
argument outside the claimed range `[0, 16)` — succeeds: it replies `OK` and
sets `connection.db_index` to 16, one past the last valid index of the
16-element `dbs` vector. -/
theorem claim_C3_bug :
    cmdSelect bytesSelect [[49, 54]] 0 = (.ok respOK, 16)
    ∧ ¬ ((16 : Int) < (storageNumDbs : Int))
    ∧ cmdSelect bytesSelect [[49, 55]] 0
      = (.error (.redisError "invalid DB index"), 0) := by
  refine ⟨by rfl, by decide, by rfl⟩

/-- The verb bytes `QUIT` as a client would send them. -/
def bytesQUIT : List Nat := [81, 85, 73, 84]

/-- C4 is violated: no handler class defines `cmd_quit`, so the dispatcher
resolves no handler for the verb `QUIT` and raises
`UnknownCommandError(b"QUIT")` instead of replying `OK` and closing the
connection. -/
theorem claim_C4_bug :
    processCommandDispatch [bytesQUIT] stateNormal
      = .error (.redis (.unknownCommand bytesQUIT))
    ∧ cleanCommand bytesQUIT ∉ commandHandlerVerbs
    ∧ cleanCommand bytesQUIT ∉ pubSubCommands := by
  refine ⟨by rfl, by decide, by decide⟩

/-- The verb bytes `set`. -/
def bytesSet : List Nat := [115, 101, 116]

/-- C5 is violated for every SET whose final argument is the option `ex` or
`px`: the guard before the operand read compares `i` (not `i + 1`) against
`len(args)` and can never fire, so the handler reaches `args[i+1]` and dies
with an unstructured `IndexError` instead of raising the structured
`CommandSyntaxError`. -/
theorem claim_C5_bug (command k v : List Nat) (db : DBState) (now : Int) :
    cmdSet command [k, v, bytesEx] db now = .error .indexError
    ∧ cmdSet command [k, v, bytesPx] db now = .error .indexError := by
  have hget : ∀ e : List Nat, ([k, v, e])[2]? = some e := by
    intro e
    norm_num [List.getElem?_cons_succ, List.getElem?_cons_zero]
  have hex : parseSetOpts [k, v, bytesEx] 2 false false none none
      = .error .indexError := by
    rw [parseSetOpts.eq_def]
    split
    · rename_i hx
      rw [hget bytesEx] at hx
      exact Option.noConfusion hx
    · rename_i a hx
      rw [hget bytesEx] at hx
      have ha : a = bytesEx := (Option.some.inj hx).symm
      subst ha
      norm_num [bytesEx, bytesNx, bytesXx, bytesPx]
  have hpx : parseSetOpts [k, v, bytesPx] 2 false false none none
      = .error .indexError := by
    rw [parseSetOpts.eq_def]
    split
    · rename_i hx
      rw [hget bytesPx] at hx
      exact Option.noConfusion hx
    · rename_i a hx
      rw [hget bytesPx] at hx
      have ha : a = bytesPx := (Option.some.inj hx).symm
      subst ha
      norm_num [bytesEx, bytesNx, bytesXx, bytesPx]
  constructor
  · rw [cmdSet.eq_def]
    norm_num [hex]
  · rw [cmdSet.eq_def]
    norm_num [hpx]

/-- The option loop terminates with the accumulated flags once the index
passes the end of the argument vector. -/
theorem parseSetOpts_done (args : List (List Nat)) (i : Nat) (h : args.length ≤ i)
    (nx xx : Bool) (ex px : Option Int) :
    parseSetOpts args i nx xx ex px = .ok (nx, xx, ex, px) := by
  rw [parseSetOpts.eq_def]
  split
  · rfl
  · rename_i a hx
    rw [List.getElem?_eq_none h] at hx
    exact Option.noConfusion hx

/-- The option loop skips an argument matching none of the four option
spellings, leaving every flag unchanged. -/
theorem parseSetOpts_skip (args : List (List Nat)) (i : Nat) (a : List Nat)
    (hx : args[i]? = some a) (h1 : a ≠ bytesNx) (h2 : a ≠ bytesXx)
    (h3 : a ≠ bytesEx) (h4 : a ≠ bytesPx) (nx xx : Bool) (ex px : Option Int) :
    parseSetOpts args i nx xx ex px = parseSetOpts args (i + 1) nx xx ex px := by
  rw [parseSetOpts.eq_def]
  split
  · rename_i hx2
    rw [hx2] at hx
    exact Option.noConfusion hx
  · rename_i a2 hx2
    rw [hx2] at hx
    have : a2 = a := Option.some.inj hx
    subst this
    rw [if_neg h1, if_neg h2, if_neg h3, if_neg h4]

/-- The option loop sets the `nx` flag on the lowercase spelling. -/
theorem parseSetOpts_nx (args : List (List Nat)) (i : Nat)
    (hx : args[i]? = some bytesNx) (nx xx : Bool) (ex px : Option Int) :
    parseSetOpts args i nx xx ex px = parseSetOpts args (i + 1) true xx ex px := by
  rw [parseSetOpts.eq_def]
  split
  · rename_i hx2
    rw [hx2] at hx
    exact Option.noConfusion hx
  · rename_i a2 hx2
    rw [hx2] at hx
    have : a2 = bytesNx := Option.some.inj hx
    subst this
    rw [if_pos rfl]

/-- DB state with one active key `k` (no TTL), for the C6 scenario. -/
def c6Db : DBState := ⟨[([107], [118])], [], [], 0⟩

/-- The uppercase option bytes `NX`. -/
def bytesNXUpper : List Nat := [78, 88]

/-- C6 is violated: on a DB where key `k` is active, `SET k w NX` (uppercase)
overwrites the key and replies `OK`, while `SET k w nx` (lowercase) is the
claimed no-op replying the null bulk string — the option comparison in
`cmd_set` is against the lowercase byte literals only and the argument bytes
are never lowercased. -/
theorem claim_C6_counterexample :
    cmdSet bytesSet [[107], [119], bytesNXUpper] c6Db 0
      ≠ cmdSet bytesSet [[107], [119], bytesNx] c6Db 0 := by
  have hup : parseSetOpts [[107], [119], bytesNXUpper] 2 false false none none
      = .ok (false, false, none, none) := by
    rw [parseSetOpts_skip _ 2 bytesNXUpper (by decide) (by decide) (by decide)
      (by decide) (by decide), parseSetOpts_done _ 3 (by decide)]
  have hlo : parseSetOpts [[107], [119], bytesNx] 2 false false none none
      = .ok (true, false, none, none) := by
    rw [parseSetOpts_nx _ 2 (by decide), parseSetOpts_done _ 3 (by decide)]
  have h1 : (cmdSet bytesSet [[107], [119], bytesNXUpper] c6Db 0).map Prod.fst
      = .ok respOK := by
    simp [cmdSet, hup, optTruthy, getActiveKey, isKeyActive, assocGet, c6Db,
      Except.map]
  have h2 : (cmdSet bytesSet [[107], [119], bytesNx] c6Db 0).map Prod.fst
      = .ok .nullBulk := by
    simp [cmdSet, hlo, optTruthy, getActiveKey, isKeyActive, assocGet, c6Db,
      Except.map]
  intro heq
  rw [heq, h2] at h1
  have := Except.ok.inj h1
  exact RedisData.noConfusion this

/-- C6 amended: `cmd_set` recognizes its option names only in the exact
lowercase spellings `nx`, `xx`, `ex`, `px`; any other spelling — uppercase
`NX`/`XX`/`EX`/`PX` included — is silently skipped by the option loop, so
`SET k v OPT` behaves exactly like plain `SET k v`, not like the lowercase
option. -/
theorem claim_C6_amended (command k v opt : List Nat) (db : DBState) (now : Int)
    (h1 : opt ≠ bytesNx) (h2 : opt ≠ bytesXx) (h3 : opt ≠ bytesEx)
    (h4 : opt ≠ bytesPx) :
    cmdSet command [k, v, opt] db now = cmdSet command [k, v] db now := by
  have hget : ([k, v, opt])[2]? = some opt := by
    norm_num [List.getElem?_cons_succ, List.getElem?_cons_zero]
  have hopts : parseSetOpts [k, v, opt] 2 false false none none
      = .ok (false, false, none, none) := by
    rw [parseSetOpts_skip _ 2 opt hget h1 h2 h3 h4,
      parseSetOpts_done _ 3 (by norm_num)]
  rw [cmdSet.eq_def, cmdSet.eq_def]
  norm_num [hopts]

/-- C6 witness: the amended equivalence at the concrete uppercase `NX` call
of the counterexample. -/
theorem claim_C6_witness :
    (bytesNXUpper ≠ bytesNx ∧ bytesNXUpper ≠ bytesXx ∧ bytesNXUpper ≠ bytesEx
      ∧ bytesNXUpper ≠ bytesPx)
    ∧ cmdSet bytesSet [[107], [119], bytesNXUpper] c6Db 0
      = cmdSet bytesSet [[107], [119]] c6Db 0 :=
  ⟨⟨by decide, by decide, by decide, by decide⟩,
    claim_C6_amended bytesSet [107] [119] bytesNXUpper c6Db 0
      (by decide) (by decide) (by decide) (by decide)⟩

/-- The verb bytes `publish`. -/
def bytesPublish : List Nat := [112, 117, 98, 108, 105, 115, 104]

/-- Pub/sub state for C7: connection 0 holds the single pattern `n*`. -/
def c7PS : PubSubState := ⟨[], [], [(0, [[110, 42]])]⟩

/-- C7 is violated: publishing message `hi` on channel `news` enqueues for
the pattern subscriber the three-element frame
`["pmessage", "n*", "hi"]` — the channel is missing — rather than the
claimed four-element `["pmessage", "n*", "news", "hi"]`. -/
theorem claim_C7_bug :
    (cmdPublish bytesPublish [[110, 101, 119, 115], [104, 105]] c7PS).map Prod.snd
      = .ok [(0, .array [.bulk bytesPmessage, .bulk [110, 42], .bulk [104, 105]])]
    ∧ (RedisData.array [.bulk bytesPmessage, .bulk [110, 42], .bulk [104, 105]])
      ≠ (RedisData.array [.bulk bytesPmessage, .bulk [110, 42],
          .bulk [110, 101, 119, 115], .bulk [104, 105]]) := by
  constructor
  · have hmatch : globMatch [110, 42] [110, 101, 119, 115] = true := by
      simp [globMatch]
    simp [cmdPublish, patternConnectionTuples, c7PS, assocGet, hmatch, Except.map]
  · intro heq
    have := RedisData.array.inj heq
    simp at this

/-- The verb bytes `pubsub`. -/
def bytesPubsubVerb : List Nat := [112, 117, 98, 115, 117, 98]

/-- Pub/sub state for C8: connection 0 holds the single pattern `a*`, so the
total number of pattern subscriptions across all connections is 1. -/
def c8PS : PubSubState := ⟨[], [], [(0, [[97, 42]])]⟩

/-- C8 is violated: `cmd_pubsub` NUMPAT sums `len(x)` over the *keys* of
`_connection_pattern_channel_map` — the `Connection` objects, which have no
`__len__` — so with one pattern subscription in place it raises `TypeError`
instead of replying Integer 1 (the sum of the pattern-set sizes). -/
theorem claim_C8_bug :
    cmdPubsub bytesPubsubVerb [bytesNumpat] c8PS = .error .typeError
    ∧ (c8PS.connectionPatternMap.map (fun p => p.2.length)).sum = 1
    ∧ cmdPubsub bytesPubsubVerb [bytesNumpat] emptyPubSub = .ok (.int 0) := by
  refine ⟨by rfl, by decide, by rfl⟩

/-- C9 is violated for PSUBSCRIBE: a successful `PSUBSCRIBE p` on a
connection in `normal` mode leaves the mode `normal` — `cmd_psubscribe`
never assigns `connection.state`. -/
theorem claim_C9_counterexample :
    (cmdPsubscribe bytesPsubscribe [[112]] 0 stateNormal emptyPubSub).map
      (fun r => r.2.1) = .ok stateNormal
    ∧ stateNormal ≠ statePubsub := by
  refine ⟨by rfl, by decide⟩

/-- C9 amended: every successful SUBSCRIBE leaves the connection mode
`pubsub`, but PSUBSCRIBE leaves the mode unchanged whatever it was — the
normal-to-pubsub transition happens only on a successful SUBSCRIBE. -/
theorem claim_C9_amended (command : List Nat) (args : List (List Nat))
    (conn : ConnId) (connState : List Nat) (ps : PubSubState) (h : args ≠ []) :
    (cmdSubscribe command args conn connState ps).map (fun r => r.2.1)
      = .ok statePubsub
    ∧ (cmdPsubscribe command args conn connState ps).map (fun r => r.2.1)
      = .ok connState := by
  constructor
  · simp [cmdSubscribe, h, Except.map]
  · simp [cmdPsubscribe, h, Except.map]

/-- C9 witness: the amended statement at a concrete single-pattern call. -/
theorem claim_C9_witness :
    ([[112]] : List (List Nat)) ≠ []
    ∧ ((cmdSubscribe bytesSubscribe [[112]] 0 stateNormal emptyPubSub).map
        (fun r => r.2.1) = .ok statePubsub
      ∧ (cmdPsubscribe bytesSubscribe [[112]] 0 stateNormal emptyPubSub).map
        (fun r => r.2.1) = .ok stateNormal) :=
  ⟨by decide, claim_C9_amended bytesSubscribe [[112]] 0 stateNormal emptyPubSub
    (by decide)⟩

end Dredispy
